import Mathlib

/-!
Verification of the mattress-notifications delivery SMS system.

This file gives a shallow embedding, in Lean, of the core of the
JavaScript source: the SMS template / delivery-window calculator
(`services/templates`, reproduced in the repository README), the phone
normalization (`services/utils.js`), the reschedule engine
(`services/reschedule`), the inbound SMS webhook (`/api/quo/webhook` in
the server file), the Spoke ingestion webhook (`webhooks/spoke.js`) and
the daily scheduler (`services/scheduler.js`).  Machine integers are
modelled by `Nat`/`Int`, the SQLite database by explicit record state,
and every external call (Claude, Spoke, the SMS gateway) by an explicit
parameter carrying that call's outcome, mirroring the JavaScript
control flow around it.
-/

namespace MattressNotif

/-! ## Calendar arithmetic

Models the JavaScript `Date` values the source builds from strings of
the form `"YYYY-MM-DD" + "T12:00:00"`.  Instants are local-clock
milliseconds since the Unix epoch (the source compares `Date` values
numerically and adds whole days with `setDate`, which preserves the
local clock time, so a local-clock millisecond line is the faithful
model).  Civil-date/day-number conversions use the standard Gregorian
algorithms. -/

def isLeapYear (y : Int) : Bool :=
  (y % 4 == 0 && y % 100 != 0) || y % 400 == 0

def daysInMonth (y m : Int) : Int :=
  if m = 1 then 31
  else if m = 2 then (if isLeapYear y then 29 else 28)
  else if m = 3 then 31
  else if m = 4 then 30
  else if m = 5 then 31
  else if m = 6 then 30
  else if m = 7 then 31
  else if m = 8 then 31
  else if m = 9 then 30
  else if m = 10 then 31
  else if m = 11 then 30
  else if m = 12 then 31
  else 0

/-- Days since 1970-01-01 of the civil date y-m-d (Gregorian). -/
def daysFromCivil (y m d : Int) : Int :=
  let y2 := if m ≤ 2 then y - 1 else y
  let era := Int.fdiv y2 400
  let yoe := y2 - era * 400
  let mp := Int.emod (m + 9) 12
  let doy := Int.fdiv (153 * mp + 2) 5 + d - 1
  let doe := yoe * 365 + Int.fdiv yoe 4 - Int.fdiv yoe 100 + doy
  era * 146097 + doe - 719468

/-- Civil date (y, m, d) of a day number (days since 1970-01-01). -/
def civilFromDays (z : Int) : Int × Int × Int :=
  let z2 := z + 719468
  let era := Int.fdiv z2 146097
  let doe := z2 - era * 146097
  let yoe := Int.fdiv (doe - Int.fdiv doe 1460 + Int.fdiv doe 36524 - Int.fdiv doe 146096) 365
  let y := yoe + era * 400
  let doy := doe - (365 * yoe + Int.fdiv yoe 4 - Int.fdiv yoe 100)
  let mp := Int.fdiv (5 * doy + 2) 153
  let d := doy - Int.fdiv (153 * mp + 2) 5 + 1
  let m := mp + (if mp < 10 then 3 else -9)
  (if m ≤ 2 then y + 1 else y, m, d)

/-- JavaScript `Date.prototype.getDay`: 0 = Sunday … 6 = Saturday.
1970-01-01 was a Thursday (= 4). -/
def weekdayOfDay (z : Int) : Int := Int.emod (z + 4) 7

def msPerDay : Int := 86400000

def weekdayName (w : Int) : String :=
  if w = 0 then "Sunday"
  else if w = 1 then "Monday"
  else if w = 2 then "Tuesday"
  else if w = 3 then "Wednesday"
  else if w = 4 then "Thursday"
  else if w = 5 then "Friday"
  else if w = 6 then "Saturday"
  else ""

def monthName (m : Int) : String :=
  if m = 1 then "January"
  else if m = 2 then "February"
  else if m = 3 then "March"
  else if m = 4 then "April"
  else if m = 5 then "May"
  else if m = 6 then "June"
  else if m = 7 then "July"
  else if m = 8 then "August"
  else if m = 9 then "September"
  else if m = 10 then "October"
  else if m = 11 then "November"
  else if m = 12 then "December"
  else ""

/-- `toLocaleDateString("en-US", { weekday: "long", month: "long",
day: "numeric" })` of a local-clock instant, e.g. `"Wednesday, March 4"`. -/
def formatLongDate (ms : Int) : String :=
  let z := Int.fdiv ms msPerDay
  let c := civilFromDays z
  weekdayName (weekdayOfDay z) ++ ", " ++ monthName c.2.1 ++ " " ++ toString c.2.2

def digitVal (c : Char) : Nat := c.toNat - 48

/-- JavaScript `String.prototype.toUpperCase` (ASCII range), as a
structurally recursive function. -/
def toUpperStr (s : String) : String := ⟨s.data.map Char.toUpper⟩

/-- JavaScript `String.prototype.trim`, as a structurally recursive
function. -/
def trimStr (s : String) : String :=
  ⟨((s.data.dropWhile Char.isWhitespace).reverse.dropWhile Char.isWhitespace).reverse⟩

/-- JavaScript `String.prototype.startsWith`. -/
def strStartsWith (s pre : String) : Bool := pre.data.isPrefixOf s.data

/-- JavaScript `name.split(" ")[0]`. -/
def firstWord (s : String) : String := ⟨s.data.takeWhile fun c => c ≠ ' '⟩

/-- Strict parse of a `"YYYY-MM-DD"` date string, validating component
ranges the way `new Date(dateStr + "T12:00:00")` does for ISO input
(an out-of-range component yields an Invalid Date, modelled by `none`). -/
def parseDateYMD (s : String) : Option (Int × Int × Int) :=
  match s.toList with
  | [y1, y2, y3, y4, c1, m1, m2, c2, d1, d2] =>
    if y1.isDigit && y2.isDigit && y3.isDigit && y4.isDigit &&
       c1 = '-' && m1.isDigit && m2.isDigit &&
       c2 = '-' && d1.isDigit && d2.isDigit then
      let y : Int := Int.ofNat (digitVal y1 * 1000 + digitVal y2 * 100 + digitVal y3 * 10 + digitVal y4)
      let m : Int := Int.ofNat (digitVal m1 * 10 + digitVal m2)
      let d : Int := Int.ofNat (digitVal d1 * 10 + digitVal d2)
      if 1 ≤ m && m ≤ 12 && 1 ≤ d && d ≤ daysInMonth y m then some (y, m, d) else none
    else none
  | _ => none

/-- Local-clock instant (ms) of `new Date(dateStr + "T12:00:00")` for a
well-formed date string. -/
def dateNoonMs (y m d : Int) : Int := daysFromCivil y m d * msPerDay + 43200000

/-! ## WindowCalculator (`services/templates`, README lines 420-633) -/

/-- `roundUpTo30`: round minutes-from-midnight up to the nearest
30-minute mark (`Math.ceil(minutes / 30) * 30`). -/
def roundUpTo30 (minutes : Nat) : Nat := ((minutes + 29) / 30) * 30

structure TimeParts where
  display : String
  ampm : String
  hours24 : Nat
deriving Repr, DecidableEq

/-- `formatTime`: format minutes-from-midnight into display components. -/
def formatTime (minutes : Nat) : TimeParts :=
  let hours := minutes / 60
  let mins := minutes % 60
  let ampm := if hours < 12 then "AM" else "PM"
  let dh := hours % 12
  let displayHour := if dh = 0 then 12 else dh
  let displayMin := if mins = 0 then ":00" else ":30"
  { display := toString displayHour ++ displayMin, ampm := ampm, hours24 := hours }

/-- `formatWindow`: build the `"between X and Y"` string, collapsing the
meridiem when both ends share it. -/
def formatWindow (startMinutes endMinutes : Nat) : String :=
  let s := formatTime startMinutes
  let e := formatTime endMinutes
  if s.ampm = "AM" && e.ampm = "AM" then
    "between " ++ s.display ++ " and " ++ e.display ++ " AM"
  else if s.ampm = "AM" && e.ampm = "PM" then
    "between " ++ s.display ++ " AM and " ++ e.display ++ " PM"
  else if s.ampm = "PM" && e.ampm = "PM" then
    "between " ++ s.display ++ " and " ++ e.display ++ " PM"
  else
    "between " ++ s.display ++ " " ++ s.ampm ++ " and " ++ e.display ++ " " ++ e.ampm

def formatTimeFullDisplay (minutes : Nat) : String :=
  let t := formatTime minutes
  t.display ++ " " ++ t.ampm

structure DeliveryWindow where
  windowStart : Nat
  windowEnd : Nat
  windowText : String
  startDisplay : String
  endDisplay : String
deriving Repr, DecidableEq

/-- `computeDeliveryWindow` on the numeric branch (`rawTime` given as
minutes from midnight). -/
def computeDeliveryWindow (minutes : Nat) : DeliveryWindow :=
  let windowStart := roundUpTo30 minutes
  let clampedStart := max 420 (min 1080 windowStart)
  let windowEnd := clampedStart + 120
  { windowStart := clampedStart
    windowEnd := windowEnd
    windowText := formatWindow clampedStart windowEnd
    startDisplay := formatTimeFullDisplay clampedStart
    endDisplay := formatTimeFullDisplay windowEnd }

/-- Match the regex `^(\d{1,2}):(\d{2})\s*(AM|PM)$` against the cleaned
time string and convert to minutes from midnight as the source does. -/
def matchAmPm (cs : List Char) : Option Nat :=
  let afterHour : Nat → List Char → Option Nat := fun h rest =>
    match rest with
    | ':' :: a :: b :: tail =>
      if a.isDigit && b.isDigit then
        let mins := 10 * digitVal a + digitVal b
        let tail2 := tail.dropWhile Char.isWhitespace
        match tail2 with
        | ['A', 'M'] =>
          let h2 := if h = 12 then 0 else h
          some (h2 * 60 + mins)
        | ['P', 'M'] =>
          let h2 := if h ≠ 12 then h + 12 else h
          some (h2 * 60 + mins)
        | _ => none
      else none
    | _ => none
  match cs with
  | a :: rest =>
    if a.isDigit then
      match rest with
      | b :: rest2 =>
        if b.isDigit then afterHour (10 * digitVal a + digitVal b) rest2
        else afterHour (digitVal a) rest
      | [] => none
    else none
  | [] => none

/-- Match the regex `^(\d{1,2}):(\d{2})(?::(\d{2}))?$` (24-hour form). -/
def matchH24 (cs : List Char) : Option Nat :=
  let afterHour : Nat → List Char → Option Nat := fun h rest =>
    match rest with
    | ':' :: a :: b :: tail =>
      if a.isDigit && b.isDigit then
        let mins := 10 * digitVal a + digitVal b
        match tail with
        | [] => some (h * 60 + mins)
        | [':', s1, s2] => if s1.isDigit && s2.isDigit then some (h * 60 + mins) else none
        | _ => none
      else none
    | _ => none
  match cs with
  | a :: rest =>
    if a.isDigit then
      match rest with
      | b :: rest2 =>
        if b.isDigit then afterHour (10 * digitVal a + digitVal b) rest2
        else afterHour (digitVal a) rest
      | [] => none
    else none
  | [] => none

/-- `parseTimeString`: parse a time string into minutes from midnight.
The JavaScript source has a third branch attempting `new Date(timeStr)`
for full timestamps; that branch's behaviour is engine- and
timezone-dependent and inputs reaching it are modelled by the same
540-minute (9:00 AM) value the source returns for unparseable input. -/
def parseTimeString (timeStr : String) : Nat :=
  if timeStr = "" then 540
  else
    let cleaned := toUpperStr (trimStr timeStr)
    match matchAmPm cleaned.toList with
    | some n => n
    | none =>
      match matchH24 cleaned.toList with
      | some n => n
      | none => 540

/-- `computeDeliveryWindow` on the string branch of `rawTime`. -/
def computeDeliveryWindowStr (s : String) : DeliveryWindow :=
  computeDeliveryWindow (parseTimeString s)

/-- `isSendDay` applied to a weekday number (Mon = 1 … Fri = 5). -/
def isSendDayW (day : Int) : Bool := 1 ≤ day && day ≤ 5

/-- `isDeliveryDay` applied to a weekday number (Tue = 2 … Sat = 6). -/
def isDeliveryDayW (day : Int) : Bool := 2 ≤ day && day ≤ 6

/-- `isDeliveryDay (new Date(s + "T12:00:00"))` for a date string `s`.
An unparseable string gives an Invalid Date whose `getDay()` is NaN,
failing the `day >= 2 && day <= 6` comparison. -/
def isDeliveryDayStr (s : String) : Bool :=
  match parseDateYMD s with
  | some (y, m, d) => isDeliveryDayW (weekdayOfDay (daysFromCivil y m d))
  | none => false

/-! ## Phone normalization (`services/utils.js` `cleanPhone`, and the
inline copy in the `/api/quo/webhook` handler) -/

def keepDigitPlus (c : Char) : Bool := c.isDigit || c = '+'

/-- `cleaned.startsWith("1")`. -/
def startsWithOne : List Char → Bool
  | '1' :: _ => true
  | _ => false

/-- Shared body of both normalizations: strip every character other than
digits and `+`, then apply the `+1` prefixing rules. -/
def normalizeDigits (cs : List Char) : List Char :=
  let cleaned := cs.filter keepDigitPlus
  if cleaned.length = 10 then '+' :: '1' :: cleaned
  else if cleaned.length = 11 && startsWithOne cleaned then '+' :: cleaned
  else cleaned

/-- `cleanPhone` from `services/utils.js` (the `if (!phone) return ""`
guard is the empty-string case for string input). -/
def cleanPhone (s : String) : String :=
  if s = "" then "" else ⟨normalizeDigits s.data⟩

/-- The inline normalization of the sender address in the
`/api/quo/webhook` handler (same statements, without the falsy guard). -/
def webhookCleanPhone (s : String) : String :=
  ⟨normalizeDigits s.data⟩

/-! ## Data model: the SQLite database (`database.js`)

Rows of the `notifications`, `reschedule_conversations`, `activity_log`
and `tracked_plans` tables.  Timestamps (`created_at` etc., ISO strings
in the source) are modelled by local-clock milliseconds.  Row ids are
assigned by `nextNotifId`, mirroring SQLite rowid autoincrement. -/

structure Notification where
  id : Nat
  customer_name : String
  phone : String
  store : String
  address : String
  scheduled_date : String
  time_window : String
  raw_delivery_time : Option String
  product : String
  driver : String
  status : String
  customer_response : Option String
  conversation_state : String
  reschedule_count : Nat
  rescheduled_from : Option Nat
  spoke_stop_id : Option String
  spoke_route_id : Option String
  quo_message_id : Option String
  error_message : Option String
  retry_count : Nat
  sent_at : Option Int
  response_at : Option Int
  created_at : Int
  updated_at : Int
deriving Repr, DecidableEq

structure ConvTurn where
  notification_id : Nat
  role : String
  content : String
  created_at : Int
deriving Repr, DecidableEq

structure ActivityEntry where
  kind : String
  detail : String
  notification_id : Option Nat
  created_at : Int
deriving Repr, DecidableEq

structure Db where
  notifications : List Notification
  conversations : List ConvTurn
  activity : List ActivityEntry
  trackedPlans : List (String × String)
  nextNotifId : Nat
deriving Repr, DecidableEq

/-- `logActivity` (`utils.js` and local copies): INSERT INTO activity_log. -/
def Db.logActivity (db : Db) (kind detail : String) (nid : Option Nat) (now : Int) : Db :=
  { db with activity := db.activity ++ [⟨kind, detail, nid, now⟩] }

/-- INSERT INTO reschedule_conversations. -/
def Db.insertConv (db : Db) (nid : Nat) (role content : String) (now : Int) : Db :=
  { db with conversations := db.conversations ++ [⟨nid, role, content, now⟩] }

/-- UPDATE notifications SET … WHERE id = ?. -/
def Db.updateNotif (db : Db) (nid : Nat) (f : Notification → Notification) : Db :=
  { db with notifications := db.notifications.map fun n => if n.id = nid then f n else n }

/-- INSERT INTO notifications; returns the new row's id
(`result.lastInsertRowid`). -/
def Db.insertNotif (db : Db) (mk : Nat → Notification) : Db × Nat :=
  let i := db.nextNotifId
  ({ db with notifications := db.notifications ++ [mk i], nextNotifId := i + 1 }, i)

/-! ## RescheduleEngine (`services/reschedule`) -/

structure StoreRules where
  days : List Int
  dayNames : String
  flexible : List Int
  flexibleNote : Option String
deriving Repr, DecidableEq

/-- `STORE_DELIVERY_RULES` (day numbers: 0 = Sun … 6 = Sat). -/
def STORE_DELIVERY_RULES (store : String) : Option StoreRules :=
  if store = "lexington" then
    some ⟨[2, 4, 6], "Tuesdays, Thursdays, and Saturdays", [], none⟩
  else if store = "georgetown" then
    some ⟨[2, 4, 6], "Tuesdays, Thursdays, and Saturdays", [], none⟩
  else if store = "somerset" then
    some ⟨[5], "Fridays", [], none⟩
  else if store = "london" then
    some ⟨[3], "Wednesdays", [5], some "We can occasionally do Fridays if you need it."⟩
  else none

def BLACKOUT_DATES : List String :=
  ["2026-11-26", "2026-11-27", "2026-12-24", "2026-12-25", "2026-12-31",
   "2027-01-01", "2027-05-25", "2027-07-04", "2027-09-07",
   "2027-11-25", "2027-11-26", "2027-12-24", "2027-12-25"]

structure DateValidation where
  valid : Bool
  reason : String
deriving Repr, DecidableEq

/-- `validateDate`: the mandatory server-side safety net applied to
every date Claude confirms.  `nowMs` is `new Date()` as a local-clock
instant.  An unparseable `dateStr` gives an Invalid Date (NaN): the two
numeric comparisons are then false and the weekday check rejects. -/
def validateDate (dateStr : String) (nowMs : Int) (rules : StoreRules) : DateValidation :=
  let dayNamesReason :=
    "We deliver to your area on " ++ rules.dayNames ++ ". Which of those days works for you?"
  match parseDateYMD dateStr with
  | none => { valid := false, reason := dayNamesReason }
  | some (y, m, d) =>
    let dateMs := dateNoonMs y m d
    let dayOfWeek := weekdayOfDay (daysFromCivil y m d)
    if dateMs ≤ nowMs then
      { valid := false
        reason := "That date has already passed. What day works for you? We deliver on "
          ++ rules.dayNames ++ "." }
    else
      let twoDaysOut := nowMs + 2 * msPerDay
      if dateMs < twoDaysOut then
        { valid := false
          reason := "We need at least 2 days to plan the route. Could you pick a day after "
            ++ formatLongDate twoDaysOut ++ "?" }
      else
        let allValidDays := rules.days ++ rules.flexible
        if !(allValidDays.contains dayOfWeek) then
          { valid := false, reason := dayNamesReason }
        else if BLACKOUT_DATES.contains dateStr then
          { valid := false, reason := "We're closed on that holiday. What other day works for you?" }
        else
          { valid := true, reason := "" }

/-- The structured intent parsed out of Claude's JSON reply. -/
structure ParsedResponse where
  action : String
  date : Option String
  day_name : Option String
  reply : String
deriving Repr, DecidableEq

structure RsResult where
  reply : String
  rescheduled : Bool
  handoff : Bool
  newDate : Option String
deriving Repr, DecidableEq

/-- Observable effects of one inbound event, in program order, used to
state ordering properties (what was written before what was attempted). -/
inductive Effect where
  | classifyUpdate (id : Nat) (response : String)
  | stateUpdate (id : Nat) (state : String)
  | notifUpdate (id : Nat)
  | convInsert (id : Nat) (role : String)
  | notifInsert (id : Nat)
  | oracleCall (id : Nat)
  | smsAttempt (toPhone : String) (body : String) (ok : Bool)
  | activityWrite (kind : String)
  | spokeCall
deriving Repr, DecidableEq

def Effect.isSmsAttempt : Effect → Bool
  | .smsAttempt _ _ _ => true
  | _ => false

def troubleLookupReply : String :=
  "We're having trouble looking up your delivery area. A team member will reach out to help reschedule. Thank you!"

def troubleReply : String :=
  "We're having a little trouble right now. A team member will reach out to help reschedule. Thank you!"

/-- `handleRescheduleMessage`.  `claude` is the parsed structured
response of the Claude call: `none` models both an API failure and an
unparseable reply (the source returns the identical result for both,
after the identical single conversation insert).  `spokeOk` is whether
`createRescheduledStop` succeeded (its only database effect is the
`spoke_stop_created` activity entry on success; its return value is
otherwise unused by the caller). -/
def handleRescheduleMessage (nowMs : Int) (spokeOk : Bool) (db : Db)
    (notif : Notification) (customerMessage : String)
    (claude : Option ParsedResponse) : Db × RsResult × List Effect :=
  match STORE_DELIVERY_RULES notif.store with
  | none => (db, ⟨troubleLookupReply, false, true, none⟩, [])
  | some rules =>
    let db1 := db.insertConv notif.id "user" customerMessage nowMs
    match claude with
    | none =>
      (db1, ⟨troubleReply, false, true, none⟩,
       [.convInsert notif.id "user", .oracleCall notif.id])
    | some parsed =>
      let db2 := db1.insertConv notif.id "assistant" parsed.reply nowMs
      let tr : List Effect :=
        [.convInsert notif.id "user", .oracleCall notif.id, .convInsert notif.id "assistant"]
      let confirmDate : Option String :=
        match parsed.date with
        | some pd => if parsed.action = "confirm_date" && pd ≠ "" then some pd else none
        | none => none
      match confirmDate with
      | some pd =>
        let v := validateDate pd nowMs rules
        if !v.valid then
          (db2, ⟨v.reason, false, false, none⟩, tr)
        else
          let db3 :=
            if spokeOk then
              db2.logActivity "spoke_stop_created"
                ("Rescheduled stop created in Spoke for " ++ notif.customer_name ++ " — " ++ pd)
                none nowMs
            else db2
          let db4 := db3.updateNotif notif.id fun n =>
            { n with conversation_state := "rescheduled",
                     reschedule_count := n.reschedule_count + 1,
                     updated_at := nowMs }
          let ins := db4.insertNotif fun i =>
            { id := i
              customer_name := notif.customer_name
              phone := notif.phone
              store := notif.store
              address := notif.address
              scheduled_date := pd
              time_window := "TBD"
              raw_delivery_time := none
              product := notif.product
              driver := "TBD"
              status := "pending"
              customer_response := none
              conversation_state := "none"
              reschedule_count := 0
              rescheduled_from := some notif.id
              spoke_stop_id := none
              spoke_route_id := none
              quo_message_id := none
              error_message := none
              retry_count := 0
              sent_at := none
              response_at := none
              created_at := nowMs
              updated_at := nowMs }
          let db5 := ins.1.logActivity "reschedule_confirmed"
            (notif.customer_name ++ " rescheduled to " ++ pd ++ " (" ++ parsed.day_name.getD "" ++ ")")
            (some notif.id) nowMs
          (db5, ⟨parsed.reply, true, false, some pd⟩,
           tr ++ [.spokeCall, .notifUpdate notif.id, .notifInsert ins.2,
                  .activityWrite "reschedule_confirmed"])
      | none =>
        if parsed.action = "handoff" then
          let db3 := db2.updateNotif notif.id fun n =>
            { n with conversation_state := "handoff", updated_at := nowMs }
          let db4 := db3.logActivity "reschedule_handoff"
            (notif.customer_name ++ " needs human assistance for rescheduling")
            (some notif.id) nowMs
          (db4, ⟨parsed.reply, false, true, none⟩,
           tr ++ [.stateUpdate notif.id "handoff", .activityWrite "reschedule_handoff"])
        else
          (db2, ⟨parsed.reply, false, false, none⟩, tr)

/-- `startRescheduleConversation`, kicked off after a customer replies
NO.  The `sendSms` call is not wrapped in a try/catch there: on failure
(`sendOk = false`) the exception propagates to the webhook's outer
catch, so the conversation insert and activity entry after it are
skipped while the already-committed `conversation_state` update stays. -/
def startRescheduleConversation (nowMs : Int) (sendOk : Bool) (db : Db)
    (notif : Notification) : Db × List Effect :=
  match STORE_DELIVERY_RULES notif.store with
  | none =>
    (db, [.smsAttempt notif.phone
      "No problem! A member of our team will text you tomorrow after 10 AM to reschedule your delivery. Thank you!"
      sendOk])
  | some rules =>
    let db1 := db.updateNotif notif.id fun n =>
      { n with conversation_state := "rescheduling", updated_at := nowMs }
    let firstName := firstWord notif.customer_name
    let message :=
      match rules.flexibleNote with
      | some note =>
        "No problem, " ++ firstName ++ "! We can reschedule your delivery. We typically deliver to your area on "
          ++ rules.dayNames ++ ". " ++ note ++ " What day works best for you?"
      | none =>
        "No problem, " ++ firstName ++ "! We can reschedule your delivery. We deliver to your area on "
          ++ rules.dayNames ++ ". What day works best for you?"
    if sendOk then
      let db2 := db1.insertConv notif.id "assistant" message nowMs
      let db3 := db2.logActivity "reschedule_started"
        ("Reschedule conversation started with " ++ notif.customer_name) (some notif.id) nowMs
      (db3, [.stateUpdate notif.id "rescheduling", .smsAttempt notif.phone message true,
             .convInsert notif.id "assistant", .activityWrite "reschedule_started"])
    else
      (db1, [.stateUpdate notif.id "rescheduling", .smsAttempt notif.phone message false])

/-! ## ReplyClassifier: the `/api/quo/webhook` handler (server file) -/

/-- Ordering on `sent_at`/`updated_at` used by `ORDER BY … DESC`:
SQLite sorts NULL as smallest, so NULL rows come last in DESC order. -/
def optIntLt : Option Int → Option Int → Bool
  | none, none => false
  | none, some _ => true
  | some _, none => false
  | some a, some b => a < b

/-- `SELECT * FROM notifications WHERE phone = ? AND conversation_state
= 'rescheduling' ORDER BY updated_at DESC LIMIT 1`. -/
def findRescheduling (db : Db) (phone : String) : Option Notification :=
  (db.notifications.filter fun n =>
    n.phone = phone && n.conversation_state = "rescheduling").foldl
    (fun acc n =>
      match acc with
      | none => some n
      | some m => if optIntLt (some m.updated_at) (some n.updated_at) then some n else acc)
    none

/-- `SELECT * FROM notifications WHERE phone = ? AND status = 'sent'
ORDER BY sent_at DESC LIMIT 1`. -/
def findSent (db : Db) (phone : String) : Option Notification :=
  (db.notifications.filter fun n =>
    n.phone = phone && n.status = "sent").foldl
    (fun acc n =>
      match acc with
      | none => some n
      | some m => if optIntLt m.sent_at n.sent_at then some n else acc)
    none

def optOutReply : String :=
  "You've been opted out of delivery notifications from Mattress Overstock. Thank you!"

/-- External-call outcomes consumed by one inbound-reply webhook event.
Each webhook invocation makes at most one `sendSms` attempt, so a
single `sendOk` suffices. -/
structure ExternalCalls where
  claude : Option ParsedResponse
  spokeCreateOk : Bool
  spokeFlagOk : Bool
  sendOk : Bool

/-- The `/api/quo/webhook` handler, for a `message.received` event with
sender `fromRaw` and text `msgText`, after JSON field extraction. -/
def quoWebhook (nowMs : Int) (io2 : ExternalCalls) (db : Db)
    (fromRaw msgText : String) : Db × List Effect :=
  let rawBody := trimStr msgText
  let body := toUpperStr rawBody
  if fromRaw = "" || rawBody = "" then (db, [])
  else
    let cleanFrom := webhookCleanPhone fromRaw
    match findRescheduling db cleanFrom with
    | some rn =>
      if body = "STOP" then
        let db1 := db.updateNotif rn.id fun n =>
          { n with customer_response := some "stop", conversation_state := "none",
                   updated_at := nowMs }
        let db2 := db1.logActivity "customer_optout"
          (rn.customer_name ++ " opted out during rescheduling (STOP)") (some rn.id) nowMs
        (db2, [.classifyUpdate rn.id "stop", .activityWrite "customer_optout",
               .smsAttempt cleanFrom optOutReply io2.sendOk])
      else
        let r := handleRescheduleMessage nowMs io2.spokeCreateOk db rn rawBody io2.claude
        (r.1, r.2.2 ++ [.smsAttempt cleanFrom r.2.1.reply io2.sendOk])
    | none =>
      match findSent db cleanFrom with
      | none => (db, [])
      | some n =>
        if body = "YES" then
          let db1 := db.updateNotif n.id fun m =>
            { m with customer_response := some "yes", response_at := some nowMs,
                     status := "delivered", updated_at := nowMs }
          let db2 := db1.logActivity "customer_confirmed"
            (n.customer_name ++ " replied YES — delivery confirmed") (some n.id) nowMs
          let yesReply :=
            "Thank you! Your delivery is confirmed for tomorrow " ++ n.time_window ++ ". See you then!"
          if io2.sendOk then
            (db2.logActivity "auto_reply_sent"
              ("Confirmation reply sent to " ++ n.customer_name) (some n.id) nowMs,
             [.classifyUpdate n.id "yes", .activityWrite "customer_confirmed",
              .smsAttempt cleanFrom yesReply true, .activityWrite "auto_reply_sent"])
          else
            (db2, [.classifyUpdate n.id "yes", .activityWrite "customer_confirmed",
                   .smsAttempt cleanFrom yesReply false])
        else if body = "NO" then
          let db1 := db.updateNotif n.id fun m =>
            { m with customer_response := some "no", response_at := some nowMs,
                     updated_at := nowMs }
          let db2 := db1.logActivity "customer_declined"
            (n.customer_name ++ " replied NO — starting reschedule") (some n.id) nowMs
          let flagged :=
            if n.spoke_stop_id.getD "" ≠ "" then
              if io2.spokeFlagOk then
                (db2.logActivity "spoke_stop_flagged"
                  ("Flagged stop in Spoke for " ++ n.customer_name) (some n.id) nowMs,
                 ([.spokeCall, .activityWrite "spoke_stop_flagged"] : List Effect))
              else (db2, ([.spokeCall] : List Effect))
            else (db2, ([] : List Effect))
          let started := startRescheduleConversation nowMs io2.sendOk flagged.1 n
          (started.1,
           [.classifyUpdate n.id "no", .activityWrite "customer_declined"]
             ++ flagged.2 ++ started.2)
        else if body = "STOP" then
          let db1 := db.updateNotif n.id fun m =>
            { m with customer_response := some "stop", updated_at := nowMs }
          let db2 := db1.logActivity "customer_optout"
            (n.customer_name ++ " opted out (STOP)") (some n.id) nowMs
          if io2.sendOk then
            (db2.logActivity "auto_reply_sent"
              ("Opt-out reply sent to " ++ n.customer_name) (some n.id) nowMs,
             [.classifyUpdate n.id "stop", .activityWrite "customer_optout",
              .smsAttempt cleanFrom optOutReply true, .activityWrite "auto_reply_sent"])
          else
            (db2, [.classifyUpdate n.id "stop", .activityWrite "customer_optout",
                   .smsAttempt cleanFrom optOutReply false])
        else (db, [])

/-! ## SMS body (`getSmsBody` in `services/templates`) -/

/-- `time_window.split(/[-–]/)`: split on either dash, keeping empty
segments, as JavaScript `String.prototype.split` does. -/
def splitOnDashes (s : String) : List String :=
  (s.data.foldr
    (fun c acc =>
      if c = '-' || c = '–' then [] :: acc
      else
        match acc with
        | h :: t => (c :: h) :: t
        | [] => [[c]])
    [[]]).map fun l => ⟨l⟩

def getSmsBody (n : Notification) : String :=
  let windowText :=
    if n.time_window ≠ "" && n.time_window ≠ "TBD" then
      if strStartsWith n.time_window "between " then n.time_window
      else
        let parts := splitOnDashes n.time_window
        if parts.length = 2 then
          let startMin := parseTimeString (trimStr (parts.headD ""))
          let rounded := roundUpTo30 startMin
          let clamped := max 420 (min 1080 rounded)
          formatWindow clamped (clamped + 120)
        else n.time_window
    else if n.raw_delivery_time.getD "" ≠ "" then
      (computeDeliveryWindowStr (n.raw_delivery_time.getD "")).windowText
    else "your scheduled time"
  "Hello! Mattress Overstock here with a delivery update.\n"
    ++ "Your mattress delivery is scheduled for tomorrow " ++ windowText ++ ".\n"
    ++ "Please reply YES if this time works for you.\n"
    ++ "If it does not, reply NO and a member of our team will follow up.\n"
    ++ "If the delivery window is not accepted, your delivery will need to be moved to a different day.\n"
    ++ "Thanks—we look forward to delivering your mattress!"

/-! ## SchedulerEngine (`services/scheduler.js`)

`getESTNow()` is abstracted as the record of the values the scheduler
reads off it: the ISO calendar date, the weekday, the hour/minute, and
tomorrow's ISO date.  `lastSendDate` / `lastSummaryDate` are the
in-process guard variables. -/

structure ESTTime where
  dateStr : String
  weekday : Int
  hour : Nat
  minute : Nat
  tomorrowStr : String
deriving Repr, DecidableEq

def SEND_HOUR : Nat := 18
def SEND_MINUTE : Nat := 0
def SUMMARY_HOUR : Nat := 21
def SUMMARY_MINUTE : Nat := 0
def STAFF_PHONES : List String := ["+18593336243", "+19316500631"]

structure SchedulerState where
  lastSendDate : Option String
  lastSummaryDate : Option String
  db : Db
deriving Repr, DecidableEq

/-- `shouldSendNow`: 6 PM EST on a send day, not already sent today. -/
def shouldSendNow (lastSendDate : Option String) (now : ESTTime) : Bool :=
  if lastSendDate = some now.dateStr then false
  else if !isSendDayW now.weekday then false
  else now.hour == SEND_HOUR && now.minute ≥ SEND_MINUTE

/-- `shouldSendSummary`: 9 PM EST on a send day, not already sent today. -/
def shouldSendSummary (lastSummaryDate : Option String) (now : ESTTime) : Bool :=
  if lastSummaryDate = some now.dateStr then false
  else if !isSendDayW now.weekday then false
  else now.hour == SUMMARY_HOUR && now.minute ≥ SUMMARY_MINUTE

/-- `executeDailySend`.  `sendResult phone body` is the outcome of
`sendSms`: `Except.ok mid` on success (with the optional provider
message id), `Except.error msg` when it throws. -/
def executeDailySend (nowMs : Int) (now : ESTTime)
    (sendResult : String → String → Except String (Option String))
    (st : SchedulerState) : SchedulerState × Nat × Nat :=
  let today := now.dateStr
  let tomorrowStr := now.tomorrowStr
  let pending := st.db.notifications.filter fun n =>
    n.status = "pending" && n.scheduled_date = tomorrowStr
  if pending.isEmpty then
    let db := st.db.logActivity "scheduler_run"
      ("Daily send — no pending notifications for " ++ tomorrowStr) none nowMs
    ({ st with db := db, lastSendDate := some today }, 0, 0)
  else
    let step := fun (acc : Db × Nat × Nat) (n : Notification) =>
      match sendResult n.phone (getSmsBody n) with
      | .ok mid =>
        let db := acc.1.updateNotif n.id fun m =>
          { m with status := "sent", sent_at := some nowMs, quo_message_id := mid,
                   updated_at := nowMs }
        let db := db.logActivity "sms_sent"
          ("[6 PM Send] SMS sent to " ++ n.customer_name) (some n.id) nowMs
        (db, acc.2.1 + 1, acc.2.2)
      | .error e =>
        let db := acc.1.updateNotif n.id fun m =>
          { m with status := "failed", error_message := some e,
                   retry_count := m.retry_count + 1, updated_at := nowMs }
        let db := db.logActivity "sms_failed"
          ("[6 PM Send] Failed for " ++ n.customer_name ++ ": " ++ e) (some n.id) nowMs
        (db, acc.2.1, acc.2.2 + 1)
    let r := pending.foldl step (st.db, 0, 0)
    let db := r.1.logActivity "scheduler_complete"
      ("Daily 6 PM send complete — " ++ toString r.2.1 ++ " sent, " ++ toString r.2.2
        ++ " failed for " ++ tomorrowStr) none nowMs
    ({ st with db := db, lastSendDate := some today }, r.2)

/-- `executeStaffSummary`.  `claudeSummary` is the (optional) Claude
message; `staffSendOk` is the per-recipient send outcome.  The summary
touches `lastSummaryDate` and the activity log, never `lastSendDate`
or the notification rows. -/
def executeStaffSummary (nowMs : Int) (now : ESTTime)
    (_claudeSummary : Option String) (staffSendOk : String → Bool)
    (st : SchedulerState) : SchedulerState :=
  let tomorrowStr := now.tomorrowStr
  let rows := st.db.notifications.filter fun n => n.scheduled_date = tomorrowStr
  let _total := (rows.filter fun n => n.status ≠ "cancelled").length
  let sent := (rows.filter fun n => n.status = "sent" || n.status = "delivered").length
  let confirmed := (rows.filter fun n => n.customer_response = some "yes").length
  let declined := (rows.filter fun n => n.customer_response = some "no").length
  let noReply : Int := (sent : Int) - confirmed - declined
  let sentCount := (STAFF_PHONES.filter staffSendOk).length
  let db := st.db.logActivity "staff_summary_sent"
    ("9 PM summary sent to " ++ toString sentCount ++ " staff — "
      ++ toString confirmed ++ " confirmed, " ++ toString declined ++ " declined, "
      ++ toString noReply ++ " no reply for " ++ tomorrowStr) none nowMs
  { st with db := db, lastSummaryDate := some now.dateStr }

/-- External-call outcomes consumed by one scheduler tick. -/
structure TickEnv where
  sendResult : String → String → Except String (Option String)
  claudeSummary : Option String
  staffSendOk : String → Bool

/-- `checkAndSend`, the body run once per polling tick (and once
eagerly at startup).  Returns whether the customer batch fired. -/
def checkAndSend (nowMs : Int) (now : ESTTime) (env : TickEnv)
    (st : SchedulerState) : SchedulerState × Bool :=
  let r :=
    if shouldSendNow st.lastSendDate now then
      ((executeDailySend nowMs now env.sendResult st).1, true)
    else (st, false)
  let st2 :=
    if shouldSendSummary r.1.lastSummaryDate now then
      executeStaffSummary nowMs now env.claudeSummary env.staffSendOk r.1
    else r.1
  (st2, r.2)

/-- A sequence of polling ticks (the `setInterval` loop), each handled
to completion before the next, as in the single-threaded cooperative
model.  Returns the final state and the number of customer-batch fires. -/
def runTicks (nowMs : Int) : List (ESTTime × TickEnv) → SchedulerState → SchedulerState × Nat
  | [], st => (st, 0)
  | t :: ts, st =>
    let r := checkAndSend nowMs t.1 t.2 st
    let rest := runTicks nowMs ts r.1
    (rest.1, (if r.2 then 1 else 0) + rest.2)

/-! ## IngestionGateway (`webhooks/spoke.js`) -/

def SALE_PREFIX_TO_STORE (leadingDigit : String) : Option String :=
  if leadingDigit = "1" then some "other"
  else if leadingDigit = "2" then some "lexington"
  else if leadingDigit = "3" then some "georgetown"
  else if leadingDigit = "4" then some "somerset"
  else if leadingDigit = "5" then some "london"
  else none

/-- `resolveStoreFromSaleNumber` (`services/utils.js`). -/
def resolveStoreFromSaleNumber (saleNumber : Option String) : String :=
  match saleNumber with
  | none => "unknown"
  | some s =>
    let str := trimStr s
    if str = "" then "unknown"
    else
      match str.data.head? with
      | none => "unknown"
      | some c => (SALE_PREFIX_TO_STORE ⟨[c]⟩).getD "unknown"

def STORE_DISPLAY_NAMES (store : String) : Option String :=
  if store = "somerset" then some "Mattress Overstock - Somerset"
  else if store = "lexington" then some "Mattress Overstock - Nicholasville Road"
  else if store = "london" then some "Mattress Overstock - London"
  else if store = "georgetown" then some "Mattress Overstock - Georgetown"
  else if store = "other" then some "Mattress Overstock"
  else none

/-- `trackPlan`: extract `plans/<id>` from the stop id and record it in
`tracked_plans` (INSERT OR IGNORE on the UNIQUE `plan_id`). -/
def planIdOf (stopId : String) : Option String :=
  match stopId.data with
  | 'p' :: 'l' :: 'a' :: 'n' :: 's' :: '/' :: rest =>
    let seg := rest.takeWhile fun c => c ≠ '/'
    if seg = [] then none else some ⟨'p' :: 'l' :: 'a' :: 'n' :: 's' :: '/' :: seg⟩
  | _ => none

def Db.trackPlan (db : Db) (spokeStopId : Option String) (deliveryDate : String) : Db :=
  match spokeStopId with
  | none => db
  | some sid =>
    match planIdOf sid with
    | none => db
    | some planId =>
      if db.trackedPlans.any fun p => p.1 = planId then db
      else { db with trackedPlans := db.trackedPlans ++ [(planId, deliveryDate)] }

/-- One `stop.allocated` event after JSON field extraction and the
Spoke REST merge: the values `processSpokeStop` derives before its
dedup / delivery-day / insert sequence.  `etaMinutes` is the projected
arrival converted to EST minutes-from-midnight (when an ETA timestamp
is present), `timingMinutes` the `timing.earliestAttemptTime` fallback. -/
structure SpokeStopData where
  stopKind : Option String
  customerName : String
  phone : Option String
  address : String
  saleNumber : Option String
  scheduledDate : String
  etaMinutes : Option Nat
  etaRaw : Option String
  timingMinutes : Option Nat
  timingRaw : Option String
  driver : String
  spokeStopId : Option String
  spokeRouteId : Option String
  product : String
deriving Repr, DecidableEq

/-- `processSpokeStop` (`webhooks/spoke.js`): depot filter, missing
phone skip (with activity entry), dedup on `spoke_stop_id`, delivery
day validation (console log only), then insert + plan tracking +
`stop_imported` activity entry. -/
def processSpokeStop (nowMs : Int) (db : Db) (s : SpokeStopData) : Db :=
  if s.stopKind = some "start" || s.stopKind = some "end" then db
  else
    match s.phone with
    | none =>
      db.logActivity "stop_skipped"
        ("No phone for " ++ s.customerName ++ " at "
          ++ (if s.address = "" then "unknown address" else s.address)) none nowMs
    | some ph =>
      let store := resolveStoreFromSaleNumber s.saleNumber
      let timeWindow :=
        match s.etaMinutes with
        | some m => (computeDeliveryWindow m).windowText
        | none =>
          match s.timingMinutes with
          | some m => (computeDeliveryWindow m).windowText
          | none => "TBD"
      let rawDeliveryTime :=
        match s.etaMinutes with
        | some _ => s.etaRaw
        | none => match s.timingMinutes with
          | some _ => s.timingRaw
          | none => none
      let dupe :=
        match s.spokeStopId with
        | some sid => db.notifications.any fun n => n.spoke_stop_id = some sid
        | none => false
      if dupe then db
      else if !isDeliveryDayStr s.scheduledDate then db
      else
        let ins := db.insertNotif fun i =>
          { id := i
            customer_name := s.customerName
            phone := cleanPhone ph
            store := store
            address := s.address
            scheduled_date := s.scheduledDate
            time_window := timeWindow
            raw_delivery_time := rawDeliveryTime
            product := s.product
            driver := s.driver
            status := "pending"
            customer_response := none
            conversation_state := "none"
            reschedule_count := 0
            rescheduled_from := none
            spoke_stop_id := s.spokeStopId
            spoke_route_id := s.spokeRouteId
            quo_message_id := none
            error_message := none
            retry_count := 0
            sent_at := none
            response_at := none
            created_at := nowMs
            updated_at := nowMs }
        let db2 := ins.1.trackPlan s.spokeStopId s.scheduledDate
        db2.logActivity "stop_imported"
          ("New delivery: " ++ s.customerName ++ " → "
            ++ ((STORE_DISPLAY_NAMES store).getD store) ++ " (" ++ timeWindow ++ ")")
          (some ins.2) nowMs

/-! ## Helper lemmas -/

@[simp] lemma logActivity_notifications (db : Db) (k d : String) (i : Option Nat) (t : Int) :
    (db.logActivity k d i t).notifications = db.notifications := rfl

@[simp] lemma logActivity_conversations (db : Db) (k d : String) (i : Option Nat) (t : Int) :
    (db.logActivity k d i t).conversations = db.conversations := rfl

@[simp] lemma insertConv_notifications (db : Db) (i : Nat) (r c : String) (t : Int) :
    (db.insertConv i r c t).notifications = db.notifications := rfl

@[simp] lemma updateNotif_conversations (db : Db) (i : Nat) (f : Notification → Notification) :
    (db.updateNotif i f).conversations = db.conversations := rfl

@[simp] lemma updateNotif_notifications (db : Db) (i : Nat) (f : Notification → Notification) :
    (db.updateNotif i f).notifications
      = db.notifications.map fun n => if n.id = i then f n else n := rfl

@[simp] lemma insertNotif_fst_notifications (db : Db) (mk : Nat → Notification) :
    (db.insertNotif mk).1.notifications = db.notifications ++ [mk db.nextNotifId] := rfl

/-! ## C4 -/

/-- C4: for every minute value 0–1439, `computeDeliveryWindow` returns a
window whose start lies in [420, 1080] (7:00 AM – 6:00 PM) and whose end
is exactly the start plus 120 minutes (no clamping of the end). -/
theorem c4_window_start_clamped_end_plus_120 (m : Nat) (_h : m ≤ 1439) :
    420 ≤ (computeDeliveryWindow m).windowStart
      ∧ (computeDeliveryWindow m).windowStart ≤ 1080
      ∧ (computeDeliveryWindow m).windowEnd = (computeDeliveryWindow m).windowStart + 120 := by
  refine ⟨?_, ?_, rfl⟩ <;>
    simp only [computeDeliveryWindow, roundUpTo30] <;> omega

theorem c4_window_start_clamped_end_plus_120_witness :
    1080 ≤ 1439
      ∧ (420 ≤ (computeDeliveryWindow 1080).windowStart
          ∧ (computeDeliveryWindow 1080).windowStart ≤ 1080
          ∧ (computeDeliveryWindow 1080).windowEnd = (computeDeliveryWindow 1080).windowStart + 120) :=
  ⟨by decide, c4_window_start_clamped_end_plus_120 1080 (by decide)⟩

/-! ## C5 -/

/-- C5: the input `"9:14 AM"` produces the window text
`"between 9:30 and 11:30 AM"`; the rounding step sends the parsed
minutes to the least 30-minute mark at or above them (so a time already
on a mark is unchanged), and the window start is that rounded value
whenever it falls inside the clamping range. -/
theorem c5_round_up_to_half_hour :
    (computeDeliveryWindowStr "9:14 AM").windowText = "between 9:30 and 11:30 AM"
    ∧ (∀ m : Nat, m ≤ roundUpTo30 m ∧ 30 ∣ roundUpTo30 m
        ∧ ∀ k : Nat, m ≤ k → 30 ∣ k → roundUpTo30 m ≤ k)
    ∧ (∀ m : Nat, 30 ∣ m → roundUpTo30 m = m)
    ∧ (∀ s : String, 420 ≤ roundUpTo30 (parseTimeString s) →
        roundUpTo30 (parseTimeString s) ≤ 1080 →
        (computeDeliveryWindowStr s).windowStart = roundUpTo30 (parseTimeString s)) := by
  refine ⟨by decide, fun m => ⟨?_, ?_, fun k hk hdvd => ?_⟩, fun m hm => ?_, fun s h1 h2 => ?_⟩
  · simp only [roundUpTo30]; omega
  · simp only [roundUpTo30]; omega
  · simp only [roundUpTo30]; omega
  · simp only [roundUpTo30]; omega
  · show max 420 (min 1080 (roundUpTo30 (parseTimeString s))) = roundUpTo30 (parseTimeString s)
    omega

theorem c5_round_up_to_half_hour_witness :
    (computeDeliveryWindowStr "9:14 AM").windowText = "between 9:30 and 11:30 AM"
      ∧ roundUpTo30 570 = 570 :=
  ⟨c5_round_up_to_half_hour.1, c5_round_up_to_half_hour.2.2.1 570 (by decide)⟩

/-! ## C10 -/

lemma filter_keepDigitPlus_idem (l : List Char) :
    (l.filter keepDigitPlus).filter keepDigitPlus = l.filter keepDigitPlus := by
  induction l with
  | nil => rfl
  | cons a t ih =>
    by_cases h : keepDigitPlus a = true
    · simp [List.filter_cons, h, ih]
    · simp [List.filter_cons, h, ih]

/-- The three possible outcomes of `normalizeDigits`, with the length
of the stripped list in each case. -/
lemma normalizeDigits_cases (l : List Char) :
    let c := l.filter keepDigitPlus
    (normalizeDigits l = c ∧ c.length ≠ 10
        ∧ (c.length = 11 && startsWithOne c) = false)
    ∨ (normalizeDigits l = '+' :: '1' :: c ∧ c.length = 10)
    ∨ (normalizeDigits l = '+' :: c ∧ c.length = 11) := by
  intro c
  unfold normalizeDigits
  by_cases h10 : c.length = 10
  · right; left; exact ⟨by simp [c, h10], h10⟩
  · by_cases h11 : (c.length = 11 && startsWithOne c) = true
    · right; right
      refine ⟨by simp only [c] at h10 h11 ⊢; rw [if_neg h10, if_pos h11], ?_⟩
      exact (Bool.and_eq_true _ _ |>.mp h11).1 |> of_decide_eq_true
    · left
      refine ⟨by simp only [c] at h10 h11 ⊢; rw [if_neg h10, if_neg h11], h10, ?_⟩
      exact Bool.eq_false_iff.mpr h11

lemma normalizeDigits_filter (l : List Char) :
    (normalizeDigits l).filter keepDigitPlus = normalizeDigits l := by
  have hplus : keepDigitPlus '+' = true := rfl
  have hone : keepDigitPlus '1' = true := rfl
  rcases normalizeDigits_cases l with ⟨h, _, _⟩ | ⟨h, _⟩ | ⟨h, _⟩ <;>
    rw [h] <;> simp [List.filter_cons, hplus, hone, filter_keepDigitPlus_idem]

lemma normalizeDigits_idem (l : List Char) :
    normalizeDigits (normalizeDigits l) = normalizeDigits l := by
  have key : ∀ x : List Char, x.filter keepDigitPlus = x →
      (x.length ≠ 10 ∧ (x.length = 11 && startsWithOne x) = false) →
      normalizeDigits x = x := by
    intro x hf ⟨h10, h11⟩
    unfold normalizeDigits
    rw [hf, if_neg h10, if_neg (by rw [h11]; exact Bool.false_ne_true)]
  rcases normalizeDigits_cases l with ⟨h, h10, h11⟩ | ⟨h, h10⟩ | ⟨h, h11⟩
  · rw [h]
    have hf : (l.filter keepDigitPlus).filter keepDigitPlus = l.filter keepDigitPlus :=
      filter_keepDigitPlus_idem l
    exact key _ hf ⟨h10, h11⟩
  · rw [h]
    refine key _ ?_ ⟨?_, ?_⟩
    · have := normalizeDigits_filter l
      rw [h] at this; exact this
    · simp [h10]
    · simp [h10]
  · rw [h]
    refine key _ ?_ ⟨?_, ?_⟩
    · have := normalizeDigits_filter l
      rw [h] at this; exact this
    · simp [h11]
    · simp [h11]

/-- C10: `cleanPhone` is idempotent, the inline webhook normalization is
the same function, and hence a reply sent from the exact number stored
at ingestion re-normalizes to that stored value. -/
theorem c10_phone_normalization_idempotent :
    (∀ s : String, cleanPhone (cleanPhone s) = cleanPhone s)
    ∧ (∀ s : String, webhookCleanPhone s = cleanPhone s)
    ∧ (∀ p : String, webhookCleanPhone (cleanPhone p) = cleanPhone p) := by
  have hweb : ∀ s : String, webhookCleanPhone s = cleanPhone s := by
    intro s
    by_cases h : s = ""
    · subst h; rfl
    · simp [webhookCleanPhone, cleanPhone, h]
  have hidem : ∀ s : String, cleanPhone (cleanPhone s) = cleanPhone s := by
    intro s
    by_cases h2 : cleanPhone s = ""
    · rw [h2]; rfl
    · have hs : s ≠ "" := by
        intro hs0
        exact h2 (by rw [hs0]; rfl)
      have hval : cleanPhone s = ⟨normalizeDigits s.data⟩ := by
        rw [cleanPhone, if_neg hs]
      rw [cleanPhone, if_neg h2, hval]
      exact congrArg String.mk (normalizeDigits_idem s.data)
  exact ⟨hidem, hweb, fun p => (hweb (cleanPhone p)).trans (hidem p)⟩

/-! ## C2 -/

lemma shouldSendNow_same_date (t : ESTTime) :
    shouldSendNow (some t.dateStr) t = false := by
  simp [shouldSendNow]

lemma executeDailySend_lastSendDate (nowMs : Int) (t : ESTTime)
    (f : String → String → Except String (Option String)) (st : SchedulerState) :
    (executeDailySend nowMs t f st).1.lastSendDate = some t.dateStr := by
  unfold executeDailySend
  dsimp only
  split <;> rfl

lemma executeStaffSummary_lastSendDate (nowMs : Int) (t : ESTTime)
    (c : Option String) (f : String → Bool) (st : SchedulerState) :
    (executeStaffSummary nowMs t c f st).lastSendDate = st.lastSendDate := rfl

lemma checkAndSend_lastSendDate (nowMs : Int) (t : ESTTime) (env : TickEnv)
    (st : SchedulerState) :
    (checkAndSend nowMs t env st).1.lastSendDate
      = if (checkAndSend nowMs t env st).2 then some t.dateStr else st.lastSendDate := by
  unfold checkAndSend
  by_cases hs : shouldSendNow st.lastSendDate t = true
  · simp only [hs, if_true]
    by_cases hsum : shouldSendSummary (executeDailySend nowMs t env.sendResult st).1.lastSummaryDate t = true
    · simp [hsum, executeStaffSummary_lastSendDate, executeDailySend_lastSendDate]
    · simp [hsum, executeDailySend_lastSendDate]
  · simp only [Bool.not_eq_true] at hs
    simp only [hs, Bool.false_eq_true, if_false]
    by_cases hsum : shouldSendSummary st.lastSummaryDate t = true
    · simp [hsum, executeStaffSummary_lastSendDate]
    · simp [hsum]

lemma runTicks_no_refire (nowMs : Int) (D : String) :
    ∀ (ticks : List (ESTTime × TickEnv)) (st : SchedulerState),
      (∀ p ∈ ticks, (p.1 : ESTTime).dateStr = D) → st.lastSendDate = some D →
      (runTicks nowMs ticks st).2 = 0
  | [], _ => by intro _ _; rfl
  | t :: ts, st => by
    intro hall hlast
    have hdate : t.1.dateStr = D := hall t (by simp)
    have hns : shouldSendNow st.lastSendDate t.1 = false := by
      rw [hlast, ← hdate]; exact shouldSendNow_same_date t.1
    have hfired : (checkAndSend nowMs t.1 t.2 st).2 = false := by
      unfold checkAndSend
      simp [hns]
    have hpres : (checkAndSend nowMs t.1 t.2 st).1.lastSendDate = some D := by
      rw [checkAndSend_lastSendDate, hfired]
      simp [hlast]
    have ih := runTicks_no_refire nowMs D ts (checkAndSend nowMs t.1 t.2 st).1
      (fun p hp => hall p (by simp [hp])) hpres
    show (runTicks nowMs (t :: ts) st).2 = 0
    unfold runTicks
    dsimp only
    rw [hfired]
    simpa using ih

/-- C2: no matter how many polling ticks occur on one calendar date, the
customer-send batch (`executeDailySend`, gated by `shouldSendNow` on the
`lastSendDate` marker) executes at most once on that date. -/
theorem c2_daily_send_at_most_once_per_date (nowMs : Int) (D : String) :
    ∀ (ticks : List (ESTTime × TickEnv)) (st : SchedulerState),
      (∀ p ∈ ticks, (p.1 : ESTTime).dateStr = D) →
      (runTicks nowMs ticks st).2 ≤ 1
  | [], _ => by intro _; exact Nat.zero_le 1
  | t :: ts, st => by
    intro hall
    have hdate : t.1.dateStr = D := hall t (by simp)
    have htail : ∀ p ∈ ts, (p.1 : ESTTime).dateStr = D := fun p hp => hall p (by simp [hp])
    by_cases hf : (checkAndSend nowMs t.1 t.2 st).2 = true
    · have hpres : (checkAndSend nowMs t.1 t.2 st).1.lastSendDate = some D := by
        rw [checkAndSend_lastSendDate, hf, if_pos rfl, hdate]
      have hzero := runTicks_no_refire nowMs D ts (checkAndSend nowMs t.1 t.2 st).1 htail hpres
      show (runTicks nowMs (t :: ts) st).2 ≤ 1
      unfold runTicks
      dsimp only
      rw [hf]
      simp [hzero]
    · have ih := c2_daily_send_at_most_once_per_date nowMs D ts (checkAndSend nowMs t.1 t.2 st).1 htail
      show (runTicks nowMs (t :: ts) st).2 ≤ 1
      unfold runTicks
      dsimp only
      rw [if_neg hf]
      simpa using ih

def emptyDb : Db := ⟨[], [], [], [], 1⟩

def c2TickEnv : TickEnv := ⟨fun _ _ => Except.ok none, none, fun _ => true⟩

def c2Tick1 : ESTTime := ⟨"2026-03-02", 1, 18, 0, "2026-03-03"⟩

def c2Tick2 : ESTTime := ⟨"2026-03-02", 1, 18, 1, "2026-03-03"⟩

theorem c2_daily_send_at_most_once_per_date_witness :
    (runTicks 0 [(c2Tick1, c2TickEnv), (c2Tick2, c2TickEnv)]
      ⟨none, none, emptyDb⟩).2 ≤ 1 :=
  c2_daily_send_at_most_once_per_date 0 "2026-03-02"
    [(c2Tick1, c2TickEnv), (c2Tick2, c2TickEnv)] ⟨none, none, emptyDb⟩
    (by intro p hp; fin_cases hp <;> rfl)

/-! ## C3 -/

/-- Number of notification rows carrying a given external stop id. -/
def countStopId (db : Db) (sid : String) : Nat :=
  (db.notifications.filter fun n => n.spoke_stop_id = some sid).length

lemma countStopId_zero_iff_not_any (db : Db) (sid : String) :
    countStopId db sid = 0
      ↔ (db.notifications.any fun n => n.spoke_stop_id = some sid) = false := by
  simp [countStopId, List.length_eq_zero, List.filter_eq_nil_iff, List.any_eq_true]

lemma processSpokeStop_depot_noop (nowMs : Int) (db : Db) (s : SpokeStopData)
    (hdepot : (s.stopKind = some "start" || s.stopKind = some "end") = true) :
    processSpokeStop nowMs db s = db := by
  unfold processSpokeStop
  rw [if_pos hdepot]

lemma processSpokeStop_dup_noop (nowMs : Int) (db : Db) (s : SpokeStopData)
    (sid ph : String) (hsid : s.spokeStopId = some sid) (hph : s.phone = some ph)
    (hdup : (db.notifications.any fun n => n.spoke_stop_id = some sid) = true) :
    processSpokeStop nowMs db s = db := by
  unfold processSpokeStop
  by_cases hdepot : (s.stopKind = some "start" || s.stopKind = some "end") = true
  · rw [if_pos hdepot]
  · rw [if_neg hdepot, hph]
    dsimp only
    rw [hsid]
    simp [hdup]

lemma processSpokeStop_invalid_day_noop (nowMs : Int) (db : Db) (s : SpokeStopData)
    (ph : String) (hph : s.phone = some ph)
    (hday : isDeliveryDayStr s.scheduledDate = false) :
    processSpokeStop nowMs db s = db := by
  unfold processSpokeStop
  by_cases hdepot : (s.stopKind = some "start" || s.stopKind = some "end") = true
  · rw [if_pos hdepot]
  · rw [if_neg hdepot, hph]
    dsimp only
    cases hs : s.spokeStopId with
    | none => simp [hday]
    | some sid =>
      by_cases hdup : (db.notifications.any fun n => n.spoke_stop_id = some sid) = true
      · simp [hdup]
      · simp only [Bool.not_eq_true] at hdup
        simp [hdup, hday]

lemma trackPlan_notifications (db : Db) (a : Option String) (b : String) :
    (db.trackPlan a b).notifications = db.notifications := by
  unfold Db.trackPlan
  split
  · rfl
  · split
    · rfl
    · split
      · rfl
      · rfl

/-- When none of the skip guards applies, processing appends exactly
one new row carrying the stop id. -/
lemma processSpokeStop_insert_effect (nowMs : Int) (db : Db) (s : SpokeStopData)
    (sid ph : String) (hsid : s.spokeStopId = some sid) (hph : s.phone = some ph)
    (hdup : (db.notifications.any fun n => n.spoke_stop_id = some sid) = false)
    (hdepot : (s.stopKind = some "start" || s.stopKind = some "end") = false)
    (hday : isDeliveryDayStr s.scheduledDate = true) :
    countStopId (processSpokeStop nowMs db s) sid = countStopId db sid + 1
    ∧ ((processSpokeStop nowMs db s).notifications.any
        fun n => n.spoke_stop_id = some sid) = true := by
  unfold processSpokeStop
  rw [if_neg (by simp [hdepot]), hph]
  dsimp only
  rw [hsid]
  dsimp only
  rw [if_neg (by simp [hdup]), if_neg (by simp [hday])]
  constructor
  · simp [countStopId, trackPlan_notifications, List.filter_append]
  · simp [trackPlan_notifications, List.any_append]

/-- One processing step keeps the row count for a stop id at most 1. -/
lemma processSpokeStop_count_step (nowMs : Int) (db : Db) (s : SpokeStopData)
    (sid ph : String) (hsid : s.spokeStopId = some sid) (hph : s.phone = some ph)
    (hle : countStopId db sid ≤ 1) :
    countStopId (processSpokeStop nowMs db s) sid ≤ 1 := by
  by_cases hdepot : (s.stopKind = some "start" || s.stopKind = some "end") = true
  · rw [processSpokeStop_depot_noop nowMs db s hdepot]; exact hle
  · by_cases hday : isDeliveryDayStr s.scheduledDate = true
    · by_cases hdup : (db.notifications.any fun n => n.spoke_stop_id = some sid) = true
      · rw [processSpokeStop_dup_noop nowMs db s sid ph hsid hph hdup]; exact hle
      · simp only [Bool.not_eq_true] at hdup hdepot
        have h0 : countStopId db sid = 0 :=
          (countStopId_zero_iff_not_any db sid).mpr hdup
        have := (processSpokeStop_insert_effect nowMs db s sid ph hsid hph hdup hdepot hday).1
        omega
    · simp only [Bool.not_eq_true] at hday
      rw [processSpokeStop_invalid_day_noop nowMs db s ph hph hday]
      exact hle

/-- C3: ingestion is idempotent on the external stop identifier: a
second event with an already-present `spoke_stop_id` is a no-op, a
repeat processing of the same stop changes nothing, and any number of
ingestions of one identifier leaves at most — and, when the first one
inserts, exactly — one notification row for it. -/
theorem c3_ingestion_idempotent_on_stop_id (nowMs : Int) (db : Db) (s : SpokeStopData)
    (sid ph : String) (hsid : s.spokeStopId = some sid) (hph : s.phone = some ph) :
    ((db.notifications.any fun n => n.spoke_stop_id = some sid) = true →
        processSpokeStop nowMs db s = db)
    ∧ processSpokeStop nowMs (processSpokeStop nowMs db s) s = processSpokeStop nowMs db s
    ∧ (countStopId db sid = 0 →
        ∀ k : Nat, countStopId ((fun d => processSpokeStop nowMs d s)^[k] db) sid ≤ 1)
    ∧ (countStopId db sid = 0 →
        (s.stopKind = some "start" || s.stopKind = some "end") = false →
        isDeliveryDayStr s.scheduledDate = true →
        ∀ k : Nat, 1 ≤ k →
          countStopId ((fun d => processSpokeStop nowMs d s)^[k] db) sid = 1) := by
  have hfix : ∀ d : Db, countStopId d sid = 1 → processSpokeStop nowMs d s = d := by
    intro d h1
    have hany : (d.notifications.any fun n => n.spoke_stop_id = some sid) = true := by
      by_contra hno
      simp only [Bool.not_eq_true] at hno
      have := (countStopId_zero_iff_not_any d sid).mpr hno
      omega
    exact processSpokeStop_dup_noop nowMs d s sid ph hsid hph hany
  have hones : ∀ m : Nat, ∀ d : Db, countStopId d sid = 1 →
      countStopId ((fun d2 => processSpokeStop nowMs d2 s)^[m] d) sid = 1 := by
    intro m
    induction m with
    | zero => intro d hd; simpa using hd
    | succ i ihm =>
      intro d hd
      rw [Function.iterate_succ_apply, hfix d hd]
      exact ihm d hd
  refine ⟨fun hdup => processSpokeStop_dup_noop nowMs db s sid ph hsid hph hdup, ?_, ?_, ?_⟩
  · by_cases hdepot : (s.stopKind = some "start" || s.stopKind = some "end") = true
    · rw [processSpokeStop_depot_noop nowMs db s hdepot,
          processSpokeStop_depot_noop nowMs db s hdepot]
    · by_cases hday : isDeliveryDayStr s.scheduledDate = true
      · by_cases hdup : (db.notifications.any fun n => n.spoke_stop_id = some sid) = true
        · rw [processSpokeStop_dup_noop nowMs db s sid ph hsid hph hdup,
              processSpokeStop_dup_noop nowMs db s sid ph hsid hph hdup]
        · simp only [Bool.not_eq_true] at hdup hdepot
          have hany2 := (processSpokeStop_insert_effect nowMs db s sid ph hsid hph
            hdup hdepot hday).2
          exact processSpokeStop_dup_noop nowMs _ s sid ph hsid hph hany2
      · simp only [Bool.not_eq_true] at hday
        rw [processSpokeStop_invalid_day_noop nowMs db s ph hph hday,
            processSpokeStop_invalid_day_noop nowMs db s ph hph hday]
  · intro h0 k
    induction k generalizing db with
    | zero => simp only [Function.iterate_zero_apply]; omega
    | succ j ih =>
      rw [Function.iterate_succ_apply]
      by_cases h1 : countStopId (processSpokeStop nowMs db s) sid = 0
      · exact ih _ h1
      · have hle1 : countStopId (processSpokeStop nowMs db s) sid ≤ 1 :=
          processSpokeStop_count_step nowMs db s sid ph hsid hph (by omega)
        have h1eq : countStopId (processSpokeStop nowMs db s) sid = 1 := by omega
        have := hones j (processSpokeStop nowMs db s) h1eq
        omega
  · intro h0 hdepot hday k hk
    obtain ⟨j, rfl⟩ : ∃ j, k = j + 1 := ⟨k - 1, by omega⟩
    rw [Function.iterate_succ_apply]
    have hdup : (db.notifications.any fun n => n.spoke_stop_id = some sid) = false :=
      (countStopId_zero_iff_not_any db sid).mp h0
    have h1 : countStopId (processSpokeStop nowMs db s) sid = 1 := by
      have := (processSpokeStop_insert_effect nowMs db s sid ph hsid hph hdup hdepot hday).1
      omega
    exact hones j (processSpokeStop nowMs db s) h1

def c3Stop : SpokeStopData :=
  { stopKind := none
    customerName := "Pat Doe"
    phone := some "(859) 333-6243"
    address := "1 Main St"
    saleNumber := some "20162800"
    scheduledDate := "2026-03-03"
    etaMinutes := some 554
    etaRaw := some "9:14"
    timingMinutes := none
    timingRaw := none
    driver := "Car 1"
    spokeStopId := some "plans/abc/stops/xyz"
    spokeRouteId := some "routes/r1"
    product := "Sale #20162800" }

theorem c3_ingestion_idempotent_on_stop_id_witness :
    countStopId ((fun d => processSpokeStop 0 d c3Stop)^[2] emptyDb) "plans/abc/stops/xyz" = 1 :=
  (c3_ingestion_idempotent_on_stop_id 0 emptyDb c3Stop "plans/abc/stops/xyz"
      "(859) 333-6243" rfl rfl).2.2.2 (by decide) (by decide) (by decide) 2 (by decide)

/-! ## C8

The claim states that an ingested stop whose resolved delivery date is
not a valid delivery day produces no notification row, no error, and a
skip entry in the activity log.  The code (all four `isDeliveryDay`
call sites in `webhooks/spoke.js` and `sync.js`) only writes the skip
to the console and returns: the activity log is untouched (contrast the
missing-phone skip immediately above it, which does call
`logActivity("stop_skipped", …)`).  The claim is corrected to: no row,
no error, and no activity-log entry either. -/

def c8Stop : SpokeStopData :=
  { stopKind := none
    customerName := "Sam Roe"
    phone := some "(859) 555-0100"
    address := "2 Oak St"
    saleNumber := some "30001111"
    scheduledDate := "2026-03-01"
    etaMinutes := some 600
    etaRaw := some "10:00"
    timingMinutes := none
    timingRaw := none
    driver := "Car 2"
    spokeStopId := some "plans/def/stops/uvw"
    spokeRouteId := some "routes/r2"
    product := "Sale #30001111" }

/-- C8 counterexample: `"2026-03-01"` is a Sunday, so the stop is
skipped — and the activity log stays empty: no skip entry is recorded,
contrary to the claim. -/
theorem c8_counterexample_no_skip_activity_entry :
    isDeliveryDayStr c8Stop.scheduledDate = false
      ∧ (processSpokeStop 0 emptyDb c8Stop).notifications = []
      ∧ (processSpokeStop 0 emptyDb c8Stop).activity = [] := by
  decide

/-- C8 (amended): for a stop with a phone whose resolved delivery date
is not a valid delivery day, ingestion creates no notification row and
raises no error, and the skip is recorded only on the console — the
database, activity log included, is left entirely unchanged. -/
theorem c8_invalid_day_skip_is_silent (nowMs : Int) (db : Db) (s : SpokeStopData)
    (ph : String) (hph : s.phone = some ph)
    (hday : isDeliveryDayStr s.scheduledDate = false) :
    (processSpokeStop nowMs db s).notifications = db.notifications
      ∧ (processSpokeStop nowMs db s).activity = db.activity
      ∧ processSpokeStop nowMs db s = db := by
  have h := processSpokeStop_invalid_day_noop nowMs db s ph hph hday
  exact ⟨by rw [h], by rw [h], h⟩

theorem c8_invalid_day_skip_is_silent_witness :
    (processSpokeStop 0 emptyDb c8Stop).notifications = emptyDb.notifications
      ∧ (processSpokeStop 0 emptyDb c8Stop).activity = emptyDb.activity
      ∧ processSpokeStop 0 emptyDb c8Stop = emptyDb :=
  c8_invalid_day_skip_is_silent 0 emptyDb c8Stop "(859) 555-0100" rfl (by decide)

/-! ## C1 -/

@[simp] lemma insertConv_nextNotifId (db : Db) (i : Nat) (r c : String) (t : Int) :
    (db.insertConv i r c t).nextNotifId = db.nextNotifId := rfl

@[simp] lemma logActivity_nextNotifId (db : Db) (k d : String) (i : Option Nat) (t : Int) :
    (db.logActivity k d i t).nextNotifId = db.nextNotifId := rfl

@[simp] lemma updateNotif_nextNotifId (db : Db) (i : Nat) (f : Notification → Notification) :
    (db.updateNotif i f).nextNotifId = db.nextNotifId := rfl

/-- Reduction of `handleRescheduleMessage` on a confirmed date the
server-side validation rejects: the reply is the rejection reason and
the only database writes are the two conversation inserts. -/
lemma hrm_confirm_invalid_eq (nowMs : Int) (spokeOk : Bool) (db : Db)
    (notif : Notification) (msg d : String) (parsed : ParsedResponse) (rules : StoreRules)
    (hrules : STORE_DELIVERY_RULES notif.store = some rules)
    (hact : parsed.action = "confirm_date")
    (hdate : parsed.date = some d) (hne : d ≠ "")
    (hv : (validateDate d nowMs rules).valid = false) :
    handleRescheduleMessage nowMs spokeOk db notif msg (some parsed)
      = ((db.insertConv notif.id "user" msg nowMs).insertConv
            notif.id "assistant" parsed.reply nowMs,
         ⟨(validateDate d nowMs rules).reason, false, false, none⟩,
         [Effect.convInsert notif.id "user", Effect.oracleCall notif.id,
          Effect.convInsert notif.id "assistant"]) := by
  unfold handleRescheduleMessage
  rw [hrules]
  dsimp only
  rw [hdate]
  dsimp only
  rw [hact]
  simp [hne, hv]

/-- C1: `handleRescheduleMessage` transitions a notification to
`rescheduled` only when the server-side `validateDate` accepts the
oracle's confirmed date; `validateDate` accepts exactly the strictly
future dates meeting the 2-day lead time whose weekday is in the
store's base-plus-flexible set and which are not blacked out, and a
rejected date produces the customer-facing rejection reason as the
reply while leaving every notification row unchanged. -/
theorem c1_rescheduled_only_if_validated (nowMs : Int) (spokeOk : Bool) (db : Db)
    (notif : Notification) (msg d : String) (parsed : ParsedResponse) (rules : StoreRules)
    (hrules : STORE_DELIVERY_RULES notif.store = some rules)
    (hact : parsed.action = "confirm_date")
    (hdate : parsed.date = some d) (hne : d ≠ "") :
    (∀ dd : String, ∀ y m day : Int, parseDateYMD dd = some (y, m, day) →
        ((validateDate dd nowMs rules).valid = true ↔
          (nowMs < dateNoonMs y m day
            ∧ nowMs + 2 * msPerDay ≤ dateNoonMs y m day
            ∧ (rules.days ++ rules.flexible).contains (weekdayOfDay (daysFromCivil y m day)) = true
            ∧ BLACKOUT_DATES.contains dd = false)))
    ∧ (∀ dd : String, parseDateYMD dd = none → (validateDate dd nowMs rules).valid = false)
    ∧ ((validateDate d nowMs rules).valid = false →
        (handleRescheduleMessage nowMs spokeOk db notif msg (some parsed)).1.notifications
            = db.notifications
          ∧ (handleRescheduleMessage nowMs spokeOk db notif msg (some parsed)).2.1
            = ⟨(validateDate d nowMs rules).reason, false, false, none⟩)
    ∧ ((handleRescheduleMessage nowMs spokeOk db notif msg (some parsed)).2.1.rescheduled = true →
        (validateDate d nowMs rules).valid = true)
    ∧ ((∃ n ∈ (handleRescheduleMessage nowMs spokeOk db notif msg (some parsed)).1.notifications,
          n.id = notif.id ∧ n.conversation_state = "rescheduled") →
        (validateDate d nowMs rules).valid = true
          ∨ ∃ n ∈ db.notifications, n.id = notif.id ∧ n.conversation_state = "rescheduled") := by
  refine ⟨?_, ?_, ?_, ?_, ?_⟩
  · intro dd y m day hparse
    unfold validateDate
    rw [hparse]
    dsimp only
    split_ifs with h1 h2 h3 h4
    · constructor
      · intro h; simp at h
      · intro h; omega
    · constructor
      · intro h; simp at h
      · intro h; omega
    · constructor
      · intro h; simp at h
      · rintro ⟨-, -, hc, -⟩
        rw [Bool.not_eq_true'] at h3
        rw [hc] at h3
        cases h3
    · constructor
      · intro h; simp at h
      · rintro ⟨-, -, -, hb⟩
        rw [hb] at h4
        cases h4
    · constructor
      · intro _
        refine ⟨by omega, by omega, ?_, ?_⟩
        · simp only [Bool.not_eq_true, Bool.not_eq_false'] at h3
          exact h3
        · simp only [Bool.not_eq_true] at h4
          exact h4
      · intro _; rfl
  · intro dd hpn
    unfold validateDate
    rw [hpn]
  · intro hv
    rw [hrm_confirm_invalid_eq nowMs spokeOk db notif msg d parsed rules
      hrules hact hdate hne hv]
    exact ⟨rfl, rfl⟩
  · intro hflag
    by_cases hv : (validateDate d nowMs rules).valid = true
    · exact hv
    · simp only [Bool.not_eq_true] at hv
      rw [hrm_confirm_invalid_eq nowMs spokeOk db notif msg d parsed rules
        hrules hact hdate hne hv] at hflag
      exact absurd hflag (by simp)
  · intro hex
    by_cases hv : (validateDate d nowMs rules).valid = true
    · exact Or.inl hv
    · simp only [Bool.not_eq_true] at hv
      rw [hrm_confirm_invalid_eq nowMs spokeOk db notif msg d parsed rules
        hrules hact hdate hne hv] at hex
      exact Or.inr (by simpa using hex)

def rsNotif : Notification :=
  { id := 1
    customer_name := "Pat Doe"
    phone := "+18595550100"
    store := "lexington"
    address := "1 Main St"
    scheduled_date := "2026-03-03"
    time_window := "between 9:00 and 11:00 AM"
    raw_delivery_time := some "9:14"
    product := "Sale #20160001"
    driver := "Car 1"
    status := "sent"
    customer_response := some "no"
    conversation_state := "rescheduling"
    reschedule_count := 0
    rescheduled_from := none
    spoke_stop_id := some "plans/abc/stops/xyz"
    spoke_route_id := none
    quo_message_id := none
    error_message := none
    retry_count := 0
    sent_at := some 10
    response_at := some 20
    created_at := 0
    updated_at := 30 }

def rsDb : Db := ⟨[rsNotif], [], [], [], 2⟩

def confirmParsed : ParsedResponse :=
  ⟨"confirm_date", some "2026-03-05", some "Thursday",
   "Your delivery has been rescheduled for Thursday, March 5th!"⟩

def lexRules : StoreRules := ⟨[2, 4, 6], "Tuesdays, Thursdays, and Saturdays", [], none⟩

def rsNowMs : Int := dateNoonMs 2026 3 1

theorem c1_rescheduled_only_if_validated_witness :
    (validateDate "not-a-date" rsNowMs lexRules).valid = false :=
  (c1_rescheduled_only_if_validated rsNowMs true rsDb rsNotif "Thursday works"
    "2026-03-05" confirmParsed lexRules rfl rfl rfl (by decide)).2.1 "not-a-date" rfl

/-! ## C7 -/

/-- C7: on a validated confirmed date, `handleRescheduleMessage` marks
the original notification `rescheduled` and bumps its reschedule
counter in place, and appends a brand-new pending row (fresh id,
`time_window` TBD, `rescheduled_from` pointing at the original); the
updated original no longer satisfies the pending-for-a-date selection
used by `executeDailySend`, so it is excluded from the daily re-send
batch. -/
theorem c7_validated_confirm_marks_and_inserts (nowMs : Int) (spokeOk : Bool) (db : Db)
    (notif : Notification) (msg d : String) (parsed : ParsedResponse) (rules : StoreRules)
    (hrules : STORE_DELIVERY_RULES notif.store = some rules)
    (hact : parsed.action = "confirm_date")
    (hdate : parsed.date = some d) (hne : d ≠ "")
    (hv : (validateDate d nowMs rules).valid = true)
    (hmem : notif ∈ db.notifications)
    (hfresh : ∀ n ∈ db.notifications, n.id < db.nextNotifId)
    (hstat : notif.status = "sent")
    (huniq : ∀ n ∈ db.notifications, n.id = notif.id → n = notif) :
    (handleRescheduleMessage nowMs spokeOk db notif msg (some parsed)).2.1.rescheduled = true
    ∧ (handleRescheduleMessage nowMs spokeOk db notif msg (some parsed)).2.1.newDate = some d
    ∧ ({ notif with
           conversation_state := "rescheduled"
           reschedule_count := notif.reschedule_count + 1
           updated_at := nowMs }
         ∈ (handleRescheduleMessage nowMs spokeOk db notif msg (some parsed)).1.notifications)
    ∧ (∃ row ∈ (handleRescheduleMessage nowMs spokeOk db notif msg (some parsed)).1.notifications,
        row.id = db.nextNotifId ∧ row.status = "pending" ∧ row.time_window = "TBD"
          ∧ row.rescheduled_from = some notif.id ∧ row.scheduled_date = d
          ∧ row.conversation_state = "none" ∧ row.id ≠ notif.id)
    ∧ (handleRescheduleMessage nowMs spokeOk db notif msg (some parsed)).1.notifications.length
        = db.notifications.length + 1
    ∧ (∀ t : String,
        ∀ n ∈ ((handleRescheduleMessage nowMs spokeOk db notif msg (some parsed)).1.notifications.filter
          fun n => n.status = "pending" && n.scheduled_date = t), n.id ≠ notif.id) := by
  unfold handleRescheduleMessage
  rw [hrules]
  dsimp only
  rw [hdate]
  dsimp only
  rw [hact]
  rw [if_pos (show (decide ("confirm_date" = "confirm_date") && decide (d ≠ "")) = true
    by simp [hne])]
  dsimp only
  rw [if_neg (show ¬((!(validateDate d nowMs rules).valid) = true) by simp [hv])]
  simp only [logActivity_notifications, insertNotif_fst_notifications,
    updateNotif_notifications, apply_ite Db.notifications,
    insertConv_notifications, ite_self, insertConv_nextNotifId, logActivity_nextNotifId,
    updateNotif_nextNotifId, apply_ite Db.nextNotifId]
  refine ⟨trivial, trivial, ?_, ?_, ?_, ?_⟩
  · exact List.mem_append_left _ (List.mem_map.mpr ⟨notif, hmem, by rw [if_pos rfl]⟩)
  · refine ⟨_, List.mem_append_right _ (List.mem_singleton_self _),
      rfl, rfl, rfl, rfl, rfl, rfl, ?_⟩
    have := hfresh notif hmem
    dsimp only
    omega
  · simp [List.length_append, List.length_map]
  · intro t n hn
    rw [List.mem_filter] at hn
    obtain ⟨hmem2, hpred⟩ := hn
    rcases List.mem_append.mp hmem2 with hL | hR
    · obtain ⟨n0, hn0, hfn⟩ := List.mem_map.mp hL
      by_cases hid : n0.id = notif.id
      · have hn0eq : n0 = notif := huniq n0 hn0 hid
        subst hn0eq
        subst hfn
        rw [if_pos rfl] at hpred
        simp [hstat] at hpred
      · subst hfn
        rw [if_neg hid] at hpred ⊢
        exact hid
    · rw [List.mem_singleton] at hR
      subst hR
      have := hfresh notif hmem
      dsimp only
      omega

theorem c7_validated_confirm_marks_and_inserts_witness :
    (handleRescheduleMessage rsNowMs true rsDb rsNotif "Thursday works"
      (some confirmParsed)).2.1.rescheduled = true :=
  (c7_validated_confirm_marks_and_inserts rsNowMs true rsDb rsNotif "Thursday works"
    "2026-03-05" confirmParsed lexRules rfl rfl rfl (by decide) (by decide) (by decide)
    (by intro n hn; fin_cases hn; decide) rfl
    (by intro n hn; fin_cases hn; intro _; rfl)).1

/-! ## C9 -/

/-- C9: reply classification commits before the auto-reply.  For a YES
(resp. STOP) reply from a sender with a matched sent notification, the
database update recording the classification appears in the effect
trace strictly before any SMS attempt, every row with the matched id
carries the recorded classification, and the resulting notification
rows are identical whether the auto-reply send succeeds or fails. -/
theorem c9_classification_commits_before_auto_reply (nowMs : Int) (db : Db)
    (fromRaw msgTxt : String) (n : Notification) (cl : Option ParsedResponse) (sp fl : Bool)
    (hfrom : fromRaw ≠ "")
    (hres : findRescheduling db (webhookCleanPhone fromRaw) = none)
    (hsent : findSent db (webhookCleanPhone fromRaw) = some n) :
    (toUpperStr (trimStr msgTxt) = "YES" →
      ∀ ok : Bool,
        (∀ m ∈ (quoWebhook nowMs ⟨cl, sp, fl, ok⟩ db fromRaw msgTxt).1.notifications,
            m.id = n.id → m.customer_response = some "yes" ∧ m.status = "delivered")
        ∧ Effect.classifyUpdate n.id "yes"
            ∈ (quoWebhook nowMs ⟨cl, sp, fl, ok⟩ db fromRaw msgTxt).2.takeWhile
                (fun e => !e.isSmsAttempt)
        ∧ (quoWebhook nowMs ⟨cl, sp, fl, ok⟩ db fromRaw msgTxt).1.notifications
            = db.notifications.map fun m =>
                if m.id = n.id then
                  { m with
                      status := "delivered"
                      customer_response := some "yes"
                      response_at := some nowMs
                      updated_at := nowMs }
                else m)
    ∧ (toUpperStr (trimStr msgTxt) = "STOP" →
      ∀ ok : Bool,
        (∀ m ∈ (quoWebhook nowMs ⟨cl, sp, fl, ok⟩ db fromRaw msgTxt).1.notifications,
            m.id = n.id → m.customer_response = some "stop")
        ∧ Effect.classifyUpdate n.id "stop"
            ∈ (quoWebhook nowMs ⟨cl, sp, fl, ok⟩ db fromRaw msgTxt).2.takeWhile
                (fun e => !e.isSmsAttempt)
        ∧ (quoWebhook nowMs ⟨cl, sp, fl, ok⟩ db fromRaw msgTxt).1.notifications
            = db.notifications.map fun m =>
                if m.id = n.id then
                  { m with customer_response := some "stop", updated_at := nowMs }
                else m) := by
  constructor
  · intro hYes ok
    have htrim : trimStr msgTxt ≠ "" := by
      intro h0
      rw [h0] at hYes
      exact absurd hYes (by decide)
    unfold quoWebhook
    rw [if_neg (show ¬((decide (fromRaw = "") || decide (trimStr msgTxt = "")) = true)
      by simp [hfrom, htrim])]
    dsimp only
    rw [hres]
    dsimp only
    rw [hsent]
    dsimp only
    rw [hYes]
    rw [if_pos rfl]
    cases ok with
    | true =>
      refine ⟨?_, ?_, ?_⟩
      · intro m hm hid
        simp only [if_true, Bool.false_eq_true, if_false,
          logActivity_notifications, updateNotif_notifications] at hm
        obtain ⟨m0, _, rfl⟩ := List.mem_map.mp hm
        by_cases h0 : m0.id = n.id
        · rw [if_pos h0]
          exact ⟨rfl, rfl⟩
        · rw [if_neg h0] at hid ⊢
          exact absurd hid h0
      · simp [List.takeWhile, Effect.isSmsAttempt]
      · simp only [if_true, Bool.false_eq_true, if_false,
          logActivity_notifications, updateNotif_notifications]
    | false =>
      refine ⟨?_, ?_, by simp only [if_true, Bool.false_eq_true, if_false,
        logActivity_notifications, updateNotif_notifications]⟩
      · intro m hm hid
        simp only [if_true, Bool.false_eq_true, if_false,
          logActivity_notifications, updateNotif_notifications] at hm
        obtain ⟨m0, _, rfl⟩ := List.mem_map.mp hm
        by_cases h0 : m0.id = n.id
        · rw [if_pos h0]
          exact ⟨rfl, rfl⟩
        · rw [if_neg h0] at hid ⊢
          exact absurd hid h0
      · simp [List.takeWhile, Effect.isSmsAttempt]
  · intro hStop ok
    have htrim : trimStr msgTxt ≠ "" := by
      intro h0
      rw [h0] at hStop
      exact absurd hStop (by decide)
    unfold quoWebhook
    rw [if_neg (show ¬((decide (fromRaw = "") || decide (trimStr msgTxt = "")) = true)
      by simp [hfrom, htrim])]
    dsimp only
    rw [hres]
    dsimp only
    rw [hsent]
    dsimp only
    rw [hStop]
    rw [if_neg (show ¬("STOP" = "YES") by decide),
        if_neg (show ¬("STOP" = "NO") by decide),
        if_pos rfl]
    cases ok with
    | true =>
      refine ⟨?_, ?_, ?_⟩
      · intro m hm hid
        simp only [if_true, Bool.false_eq_true, if_false,
          logActivity_notifications, updateNotif_notifications] at hm
        obtain ⟨m0, _, rfl⟩ := List.mem_map.mp hm
        by_cases h0 : m0.id = n.id
        · rw [if_pos h0]
        · rw [if_neg h0] at hid ⊢
          exact absurd hid h0
      · simp [List.takeWhile, Effect.isSmsAttempt]
      · simp only [if_true, Bool.false_eq_true, if_false,
          logActivity_notifications, updateNotif_notifications]
    | false =>
      refine ⟨?_, ?_, by simp only [if_true, Bool.false_eq_true, if_false,
        logActivity_notifications, updateNotif_notifications]⟩
      · intro m hm hid
        simp only [if_true, Bool.false_eq_true, if_false,
          logActivity_notifications, updateNotif_notifications] at hm
        obtain ⟨m0, _, rfl⟩ := List.mem_map.mp hm
        by_cases h0 : m0.id = n.id
        · rw [if_pos h0]
        · rw [if_neg h0] at hid ⊢
          exact absurd hid h0
      · simp [List.takeWhile, Effect.isSmsAttempt]

def sentNotif : Notification :=
  { rsNotif with conversation_state := "none", customer_response := none }

def sentDb : Db := ⟨[sentNotif], [], [], [], 2⟩

theorem c9_classification_commits_before_auto_reply_witness :
    Effect.classifyUpdate sentNotif.id "yes"
      ∈ (quoWebhook 100 ⟨none, false, false, false⟩ sentDb "+18595550100" "yes").2.takeWhile
          (fun e => !e.isSmsAttempt) :=
  ((c9_classification_commits_before_auto_reply 100 sentDb "+18595550100" "yes"
      sentNotif none false false (by decide) (by decide) (by decide)).1
    (by decide) false).2.1

/-! ## C6

The claim asserts that after a STOP reply during an active rescheduling
conversation, no rescheduling turn (no oracle call, no conversation
append) is processed for that message *or any later message* for that
notification.  The first part holds; the universal part does not: the
STOP handler resets `conversation_state` to `'none'` but leaves
`status = 'sent'` and installs no opt-out guard, so a later `"NO"`
reply from the same customer matches the normal sent-row lookup,
re-enters `startRescheduleConversation`, appends a conversation turn
for the same notification id and puts it back into `'rescheduling'`.
The corrected statement confines the guarantee to the time the
notification stays out of the rescheduling state. -/

def c6Env : ExternalCalls := ⟨none, false, false, true⟩

/-- C6 counterexample: after STOP ends the rescheduling conversation
(leaving no conversation rows), a later `"NO"` reply from the same
customer appends a conversation turn for the same notification and
returns it to `conversation_state = 'rescheduling'`, so "no
rescheduling turn is processed … for any later message" is false. -/
theorem c6_counterexample_no_after_stop_restarts :
    (quoWebhook 100 c6Env rsDb "+18595550100" "STOP").1.conversations = []
    ∧ (quoWebhook 200 c6Env
        (quoWebhook 100 c6Env rsDb "+18595550100" "STOP").1
        "+18595550100" "NO").1.conversations ≠ []
    ∧ (∃ m ∈ (quoWebhook 200 c6Env
          (quoWebhook 100 c6Env rsDb "+18595550100" "STOP").1
          "+18595550100" "NO").1.notifications,
        m.id = rsNotif.id ∧ m.conversation_state = "rescheduling") := by
  decide

/-- C6 (amended): a trimmed, uppercased `"STOP"` reply during an active
rescheduling conversation is never routed to the RescheduleEngine: it
records `customer_response = 'stop'`, resets `conversation_state` to
`'none'`, appends nothing to the conversation, consults no external
call (the resulting database is independent of every external-call
outcome), and — while that customer has no row left in the
rescheduling state — a following inbound message is no longer matched
by the rescheduling lookup. -/
theorem c6_stop_short_circuits_rescheduling (nowMs : Int) (db : Db)
    (fromRaw msgTxt : String) (rn : Notification) (env1 env2 : ExternalCalls)
    (hfrom : fromRaw ≠ "")
    (hstop : toUpperStr (trimStr msgTxt) = "STOP")
    (hres : findRescheduling db (webhookCleanPhone fromRaw) = some rn)
    (honly : ∀ m ∈ db.notifications, m.phone = webhookCleanPhone fromRaw →
        m.conversation_state = "rescheduling" → m.id = rn.id) :
    (∀ m ∈ (quoWebhook nowMs env1 db fromRaw msgTxt).1.notifications,
        m.id = rn.id → m.customer_response = some "stop" ∧ m.conversation_state = "none")
    ∧ (quoWebhook nowMs env1 db fromRaw msgTxt).1.conversations = db.conversations
    ∧ (quoWebhook nowMs env1 db fromRaw msgTxt).1 = (quoWebhook nowMs env2 db fromRaw msgTxt).1
    ∧ findRescheduling (quoWebhook nowMs env1 db fromRaw msgTxt).1
        (webhookCleanPhone fromRaw) = none := by
  have htrim : trimStr msgTxt ≠ "" := by
    intro h0
    rw [h0] at hstop
    exact absurd hstop (by decide)
  have hred : ∀ env : ExternalCalls,
      (quoWebhook nowMs env db fromRaw msgTxt).1
        = (db.updateNotif rn.id fun n =>
            { n with customer_response := some "stop", conversation_state := "none",
                     updated_at := nowMs }).logActivity "customer_optout"
            (rn.customer_name ++ " opted out during rescheduling (STOP)") (some rn.id) nowMs := by
    intro env
    unfold quoWebhook
    rw [if_neg (show ¬((decide (fromRaw = "") || decide (trimStr msgTxt = "")) = true)
      by simp [hfrom, htrim])]
    dsimp only
    rw [hres]
    dsimp only
    rw [hstop]
    rw [if_pos rfl]
  refine ⟨?_, ?_, ?_, ?_⟩
  · intro m hm hid
    rw [hred env1] at hm
    simp only [logActivity_notifications, updateNotif_notifications] at hm
    obtain ⟨m0, _, rfl⟩ := List.mem_map.mp hm
    by_cases h0 : m0.id = rn.id
    · rw [if_pos h0]
      exact ⟨rfl, rfl⟩
    · rw [if_neg h0] at hid ⊢
      exact absurd hid h0
  · rw [hred env1]
    simp only [logActivity_conversations, updateNotif_conversations]
  · rw [hred env1, hred env2]
  · rw [hred env1]
    unfold findRescheduling
    have hfilter : (((db.updateNotif rn.id fun n =>
        { n with customer_response := some "stop", conversation_state := "none",
                 updated_at := nowMs }).logActivity "customer_optout"
        (rn.customer_name ++ " opted out during rescheduling (STOP)")
        (some rn.id) nowMs).notifications.filter fun n =>
          n.phone = webhookCleanPhone fromRaw
            && n.conversation_state = "rescheduling") = [] := by
      rw [List.filter_eq_nil_iff]
      intro a ha
      simp only [logActivity_notifications, updateNotif_notifications] at ha
      obtain ⟨m0, hm0, rfl⟩ := List.mem_map.mp ha
      by_cases h0 : m0.id = rn.id
      · rw [if_pos h0]
        simp
      · rw [if_neg h0]
        intro hcontra
        simp only [Bool.and_eq_true, decide_eq_true_eq] at hcontra
        exact h0 (honly m0 hm0 hcontra.1 hcontra.2)
    rw [hfilter]
    rfl

theorem c6_stop_short_circuits_rescheduling_witness :
    findRescheduling (quoWebhook 100 c6Env rsDb "+18595550100" "STOP").1
      (webhookCleanPhone "+18595550100") = none :=
  (c6_stop_short_circuits_rescheduling 100 rsDb "+18595550100" "STOP" rsNotif
    c6Env c6Env (by decide) (by decide) (by decide)
    (by intro m hm _ _; fin_cases hm; rfl)).2.2.2

end MattressNotif
